import Mathlib

/-!
Verification development for `sdk/python/feast/infra/gcp.py`: the Datastore
online store (entity-key hashing, minibatched conflict-retrying writes with a
staleness guard, point reads) and the BigQuery point-in-time join query
builder.

Modelling conventions:
* Python `datetime` values are modelled by `PyDateTime`: a wall-clock reading
  (in seconds) plus an optional UTC offset (`none` models a timezone-naive
  value).  Python compares timezone-aware datetimes by their UTC instants;
  every comparison performed by the source happens after `_make_tzaware`, on
  aware values, so comparisons are modelled on `PyDateTime.instant`.
* Byte strings are `List Nat`.
* The Datastore key-value store is an association list from document ids
  (strings) to stored rows; `dsGet`/`dsPut` model `client.get`/`client.put`
  inside a transaction, with the spec-documented behaviour that a `get` later
  in the same transactional attempt observes `put`s made earlier in the same
  attempt.
* Whether a transactional commit succeeds, raises a write-conflict, or raises
  some other store error is external input; it is modelled by an oracle
  `Nat → AttemptOutcome` giving the outcome of each attempt.  A conflicted or
  failed attempt discards its store effects (the transaction never commits)
  but not its progress-callback invocations, which already happened.
-/

namespace FeastGcp

/-- Model of a Python `datetime`: wall-clock seconds plus optional UTC offset
(`none` = timezone-naive, mirroring `tzinfo is None`). -/
structure PyDateTime where
  wall : Int
  off : Option Int
  deriving DecidableEq, Repr

/-- The UTC instant denoted by a datetime.  Python compares timezone-aware
datetimes by instant; for a naive value we take the wall clock (the source
only ever compares aware values, produced by `_make_tzaware`). -/
def PyDateTime.instant (t : PyDateTime) : Int :=
  match t.off with
  | none => t.wall
  | some o => t.wall - o

/-- `_make_tzaware` from `gcp.py`: tz-naive datetimes are assumed UTC
(`t.replace(tzinfo=utc)` keeps the wall clock and attaches UTC). -/
def _make_tzaware (t : PyDateTime) : PyDateTime :=
  match t.off with
  | none => { t with off := some 0 }
  | some _ => t

/-- UTC normalization as the spec words it: the timezone-aware UTC datetime
denoting the value's instant, naive values being read as UTC.  Used only to
compare the source's `_make_tzaware` against the spec. -/
def utcNormalized (t : PyDateTime) : PyDateTime :=
  { wall := t.instant, off := some 0 }

/-- Python `==` on datetimes: aware values compare by instant, naive values by
wall clock (aware vs naive raises, so it holds for neither). -/
def pyDatetimeEq (a b : PyDateTime) : Prop :=
  (a.off.isSome ∧ b.off.isSome ∧ a.instant = b.instant) ∨
  (a.off = none ∧ b.off = none ∧ a.wall = b.wall)

/-- A typed entity-key value (`feast.protos...Value`): only its serialized
form matters to this file. -/
inductive EValue where
  | int64Val (i : Int)
  | stringVal (s : String)
  | bytesVal (b : List Nat)
  deriving DecidableEq, Repr

/-- Model of the `EntityKey` protobuf: ordered join keys with their typed
values. -/
structure EntityKeyP where
  join_keys : List String
  entity_values : List EValue
  deriving DecidableEq, Repr

/-- Bytes of a string (code points; stands in for UTF-8). -/
def strBytes (s : String) : List Nat :=
  s.data.map Char.toNat

/-- Bytes of one typed value, with a leading tag byte. -/
def valueBytes : EValue → List Nat
  | .int64Val i => 1 :: strBytes (toString i)
  | .stringVal s => 2 :: strBytes s
  | .bytesVal b => 3 :: b

/-- Modelled from the spec: `serialize_entity_key` lives in
`feast.infra.key_encoding_utils`, which is not part of this file; the spec
requires only a deterministic canonical byte serialization of the ordered
(name, typed value) pairs, in the key's own stored order. -/
def serialize_entity_key (k : EntityKeyP) : List Nat :=
  (k.join_keys.map (fun n => strBytes n ++ [0])).flatten ++
    (k.entity_values.map (fun v => valueBytes v ++ [0])).flatten

/-- Modelled from the spec: the protobuf wire serialization
`EntityKey.SerializeToString()` (external protobuf code); the write path
stores these bytes verbatim in the row's `key` field. -/
def EntityKeyP.serializeToString (k : EntityKeyP) : List Nat :=
  10 :: serialize_entity_key k

/-- Modelled from the spec: `mmh3.hash_bytes` is an external non-cryptographic
128-bit hash returning exactly 16 bytes; modelled by an executable mixing fold
with the same output arity. -/
def hashBytes (bs : List Nat) : List Nat :=
  let h := bs.foldl (fun acc b => (acc * 1099511628211 + b) % 2 ^ 128) 14695981039346656037
  (List.range 16).map (fun i => h / 2 ^ (8 * i) % 256)

/-- Lowercase hex digit of a nibble, as in Python `bytes.hex()`. -/
def hexDigit (n : Nat) : Char :=
  if n < 10 then Char.ofNat (48 + n) else Char.ofNat (87 + n)

/-- Python `bytes.hex()`: two lowercase hex characters per byte, high nibble
first. -/
def hexEncode (bs : List Nat) : String :=
  String.mk ((bs.map (fun b => [hexDigit (b / 16 % 16), hexDigit (b % 16)])).flatten)

/-- `compute_datastore_entity_id` from `gcp.py`:
`mmh3.hash_bytes(serialize_entity_key(entity_key)).hex()`. -/
def compute_datastore_entity_id (entity_key : EntityKeyP) : String :=
  hexEncode (hashBytes (serialize_entity_key entity_key))

/-- A feature `Value` protobuf message, reduced to its serialized form. -/
structure ValueP where
  bytes : List Nat
  deriving DecidableEq, Repr

/-- Protobuf serialization of a feature value (`v.SerializeToString()`). -/
def ValueP.serializeToString (v : ValueP) : List Nat := v.bytes

/-- Protobuf parsing of a feature value (`val.ParseFromString(value_bin)`). -/
def ValueP.parseFromString (b : List Nat) : ValueP := ⟨b⟩

/-- A Datastore row as written by `_write_minibatch`: raw entity-key bytes,
feature name → serialized value bytes, event timestamp, optional created
timestamp. -/
structure StoredRow where
  key : List Nat
  values : List (String × List Nat)
  event_ts : PyDateTime
  created_ts : Option PyDateTime
  deriving DecidableEq, Repr

/-- One record of the `online_write_batch` input:
`(entity_key, features, timestamp, created_ts)`. -/
structure WriteRecord where
  entity_key : EntityKeyP
  features : List (String × ValueP)
  timestamp : PyDateTime
  created_ts : Option PyDateTime
  deriving DecidableEq, Repr

/-- The per-table Datastore state: document id → stored row. -/
def Datastore : Type := List (String × StoredRow)

instance : DecidableEq Datastore := by
  unfold Datastore
  infer_instance

/-- `client.get(key)`: point-read of a row by document id. -/
def dsGet (db : Datastore) (k : String) : Option StoredRow :=
  match db with
  | [] => none
  | (k', r) :: rest => if k' = k then some r else dsGet rest k

/-- `client.put(entity)`: upsert of a row under its document id. -/
def dsPut (db : Datastore) (k : String) (r : StoredRow) : Datastore :=
  match db with
  | [] => [(k, r)]
  | (k', r') :: rest => if k' = k then (k, r) :: rest else (k', r') :: dsPut rest k r

/-- The row contents written by `entity.update(dict(key=..., values=...,
event_ts=..., created_ts=...))` in `_write_minibatch`. -/
def mkRow (r : WriteRecord) : StoredRow :=
  { key := r.entity_key.serializeToString
    values := r.features.map (fun p => (p.1, p.2.serializeToString))
    event_ts := _make_tzaware r.timestamp
    created_ts := r.created_ts.map _make_tzaware }

/-- Junk-totalized instant of an optional datetime; only ever used under
`isSome` guards mirroring the source's `is not None` checks. -/
def optInstant : Option PyDateTime → Int
  | none => 0
  | some t => t.instant

/-- The per-record body of `_write_minibatch`'s transaction loop: fetch the
existing row, apply the staleness guard (`continue` = skip), else upsert.
Returns the store after the record and whether the record was written. -/
def processRecord (db : Datastore) (r : WriteRecord) : Datastore × Bool :=
  let document_id := compute_datastore_entity_id r.entity_key
  match dsGet db document_id with
  | some entity =>
    if entity.event_ts.instant > (_make_tzaware r.timestamp).instant then
      -- Do not overwrite feature values computed from fresher data
      (db, false)
    else if entity.event_ts.instant = (_make_tzaware r.timestamp).instant
        ∧ r.created_ts.isSome = true ∧ entity.created_ts.isSome = true
        ∧ optInstant entity.created_ts > optInstant (r.created_ts.map _make_tzaware) then
      -- Do not overwrite feature values computed from the same data, but later
      (db, false)
    else
      (dsPut db document_id (mkRow r), true)
  | none =>
    (dsPut db document_id (mkRow r), true)

/-- One iteration of `_write_minibatch`'s record loop over the accumulated
(store, `row_count`, progress invocations): the source invokes `progress(1)`
exactly at each `client.put`, so both counters step at a write and neither
steps at a skip. -/
def attemptStep (acc : Datastore × Nat × Nat) (r : WriteRecord) : Datastore × Nat × Nat :=
  ((processRecord acc.1 r).1,
    acc.2.1 + (if (processRecord acc.1 r).2 then 1 else 0),
    acc.2.2 + (if (processRecord acc.1 r).2 then 1 else 0))

/-- One transactional attempt over a whole minibatch: the record loop of
`_write_minibatch`, accumulating the store, `row_count` and the progress
invocations. -/
def attemptBody (db : Datastore) (data : List WriteRecord) : Datastore × Nat × Nat :=
  data.foldl attemptStep (db, 0, 0)

/-- Outcome of one transactional attempt's commit, decided by the store:
commit succeeds, commit raises `Conflict`, or some other error is raised. -/
inductive AttemptOutcome where
  | ok
  | conflict
  | err
  deriving DecidableEq, Repr

/-- `num_retries_on_conflict = 3` in `_write_minibatch`. -/
def num_retries_on_conflict : Nat := 3

/-- A store error surfaced by the write path: the re-raised `Conflict` after
the retry budget is exhausted, or any other store error (never caught). -/
inductive WriteError where
  | conflict
  | other
  deriving DecidableEq, Repr

/-- The `for retry_number in range(num_retries_on_conflict)` loop of
`_write_minibatch`, from retry number `r` with `remaining` iterations left:
run the transaction body; on success break, on `Conflict` retry unless
`retry_number == num_retries_on_conflict - 1` (then re-raise), on any other
error propagate.  Discarded attempts keep the original store but their
progress invocations stand.  Returns (store, total progress invocations,
attempts executed, outcome). -/
def writeAttemptsFrom (db : Datastore) (data : List WriteRecord)
    (outcomes : Nat → AttemptOutcome) :
    Nat → Nat → Nat → Datastore × Nat × Nat × Except WriteError Unit
  | _, 0, progressAcc => (db, progressAcc, num_retries_on_conflict, .error .conflict)
  | r, remaining + 1, progressAcc =>
    let body := attemptBody db data
    match outcomes r with
    | .ok => (body.1, progressAcc + body.2.2, r + 1, .ok ())
    | .err => (db, progressAcc + body.2.2, r + 1, .error .other)
    | .conflict =>
      if r = num_retries_on_conflict - 1 then
        (db, progressAcc + body.2.2, r + 1, .error .conflict)
      else
        writeAttemptsFrom db data outcomes (r + 1) remaining (progressAcc + body.2.2)

/-- `_write_minibatch` from `gcp.py`: up to `num_retries_on_conflict`
transactional attempts over one minibatch. -/
def _write_minibatch (db : Datastore) (data : List WriteRecord)
    (outcomes : Nat → AttemptOutcome) : Datastore × Nat × Nat × Except WriteError Unit :=
  writeAttemptsFrom db data outcomes 0 num_retries_on_conflict 0

/-- The fixed minibatch size of `_to_minibatches` (its only call site uses the
default `batch_size=50`). -/
def batch_size : Nat := 50

/-- `_to_minibatches` from `gcp.py`: repeatedly slice `batch_size` records off
the input iterator, yielding each non-empty slice, until the input is
exhausted. -/
def _to_minibatches : List WriteRecord → List (List WriteRecord)
  | [] => []
  | a :: as => ((a :: as).take batch_size) :: _to_minibatches ((a :: as).drop batch_size)
  termination_by l => l.length
  decreasing_by
    simp only [List.length_drop, List.length_cons, batch_size]
    omega

/-- The minibatch loop of `online_write_batch`: `ThreadPool.map` applies
`_write_minibatch` to every minibatch and re-raises the first exception when
collecting results.  Store effects are modelled sequentially; each minibatch
`i` gets its own attempt-outcome oracle `oracles i`. -/
def runMinibatches (db : Datastore) (batches : List (List WriteRecord))
    (oracles : Nat → Nat → AttemptOutcome) (i : Nat) :
    Datastore × Nat × Except WriteError Unit :=
  match batches with
  | [] => (db, 0, .ok ())
  | b :: rest =>
    let head := _write_minibatch db b (oracles i)
    let tail := runMinibatches head.1 rest oracles (i + 1)
    (tail.1, head.2.1 + tail.2.1,
      match head.2.2.2 with
      | .error e => .error e
      | .ok _ => tail.2.2)

/-- `online_write_batch` from `gcp.py`: split the data into minibatches and
write each one. -/
def online_write_batch (db : Datastore) (data : List WriteRecord)
    (oracles : Nat → Nat → AttemptOutcome) : Datastore × Nat × Except WriteError Unit :=
  runMinibatches db (_to_minibatches data) oracles 0

/-- `online_read` from `gcp.py`: for each entity key in order, point-read the
row under its document id; a missing row yields `(None, None)`, a present row
yields its event timestamp and its feature map parsed from serialized form. -/
def online_read (db : Datastore) (entity_keys : List EntityKeyP) :
    List (Option PyDateTime × Option (List (String × ValueP))) :=
  entity_keys.map fun entity_key =>
    match dsGet db (compute_datastore_entity_id entity_key) with
    | some value =>
      (some value.event_ts, some (value.values.map fun p => (p.1, ValueP.parseFromString p.2)))
    | none => (none, none)

/-- The staleness guard as the claim words it: an existing row's event
timestamp is strictly greater than the incoming one, or they are equal, both
created timestamps are present, and the existing created timestamp is strictly
greater than the incoming one.  Spec-side definition, compared against
`processRecord`. -/
def skipCondition (db : Datastore) (r : WriteRecord) : Prop :=
  ∃ e, dsGet db (compute_datastore_entity_id r.entity_key) = some e ∧
    ((_make_tzaware r.timestamp).instant < e.event_ts.instant ∨
      (e.event_ts.instant = (_make_tzaware r.timestamp).instant ∧
        ∃ rc ec, r.created_ts = some rc ∧ e.created_ts = some ec ∧
          (_make_tzaware rc).instant < ec.instant))

/-- A single-quote character, as it appears around timestamp literals in the
SQL template. -/
def sq : String := String.singleton (Char.ofNat 39)

/-- Jinja2's `join(sep)` filter. -/
def sqlJoin (sep : String) : List String → String
  | [] => ""
  | [x] => x
  | x :: y :: rest => x ++ sep ++ sqlJoin sep (y :: rest)

/-- Concatenation of rendered template fragments. -/
def sqlConcat : List String → String
  | [] => ""
  | x :: rest => x ++ sqlConcat rest

/-- `FeatureViewQueryContext` from `gcp.py`: the context object used to
template the BigQuery point-in-time SQL query. -/
structure FeatureViewQueryContext where
  name : String
  ttl : Int
  entities : List String
  features : List String
  table_ref : String
  event_timestamp_column : String
  created_timestamp_column : String
  field_mapping : List (String × String)
  query : String
  table_subquery : String
  deriving DecidableEq, Repr

/-!
Rendering of the Jinja2 template `SINGLE_FEATURE_VIEW_POINT_IN_TIME_JOIN`.
`min_timestamp` and `max_timestamp` are taken as the strings Jinja2
interpolates for them (`str(datetime)`).  The SQL comments of the template and
insignificant indentation are not reproduced; every SQL token the template
emits is.
-/

/-- The `{% if featureview.ttl == 0 %}{% else %}AND ...{% endif %}` clause
bounding source rows below: empty for `ttl == 0`, otherwise
`AND <event col> >= Timestamp_sub(TIMESTAMP '<min_timestamp>', interval <ttl>
second)`.  Used identically in the union stage and in the join stage. -/
def ttlBoundClause (fv : FeatureViewQueryContext) (min_timestamp : String) : String :=
  if fv.ttl = 0 then ""
  else
    "AND " ++ fv.event_timestamp_column ++ " >= Timestamp_sub(TIMESTAMP " ++ sq ++
      min_timestamp ++ sq ++ ", interval " ++ toString fv.ttl ++ " second)"

/-- The scan of a feature view's source table:
`FROM <table_subquery> WHERE <event col> <= '<max_timestamp>'` followed by the
TTL lower bound when the TTL is nonzero. -/
def sourceScan (fv : FeatureViewQueryContext) (max_timestamp min_timestamp : String) : String :=
  "FROM " ++ fv.table_subquery ++ " WHERE " ++ fv.event_timestamp_column ++ " <= " ++ sq ++
    max_timestamp ++ sq ++ "\n" ++ ttlBoundClause fv min_timestamp

/-- The per-feature validity test inside `IF(..., <feature>, NULL)`:
`event_timestamp >= <name>_feature_timestamp` and, when the TTL is nonzero,
`AND Timestamp_sub(event_timestamp, interval <ttl> second) <
<name>_feature_timestamp`. -/
def validityCondition (fv : FeatureViewQueryContext) : String :=
  "event_timestamp >= " ++ fv.name ++ "_feature_timestamp " ++
    (if fv.ttl = 0 then ""
     else
       "AND Timestamp_sub(event_timestamp, interval " ++ toString fv.ttl ++ " second) < " ++
         fv.name ++ "_feature_timestamp")

/-- Stage 1 of the template: the `<name>__union_features` CTE unioning the
entity dataframe (feature timestamp NULL, `is_entity_table` true) with the
TTL-and-max-bounded source rows. -/
def unionFeaturesCte (fv : FeatureViewQueryContext) (max_timestamp min_timestamp : String) :
    String :=
  fv.name ++ "__union_features AS (\nSELECT\n  row_number,\n  event_timestamp,\n  NULL as " ++
    fv.name ++ "_feature_timestamp,\n  NULL as created_timestamp,\n  " ++
    sqlJoin ", " fv.entities ++
    ",\n  true AS is_entity_table\nFROM entity_dataframe\nUNION ALL\nSELECT\n  NULL as row_number,\n  " ++
    fv.event_timestamp_column ++ " as event_timestamp,\n  " ++
    fv.event_timestamp_column ++ " as " ++ fv.name ++ "_feature_timestamp,\n  " ++
    fv.created_timestamp_column ++ " as created_timestamp,\n  " ++
    sqlJoin ", " fv.entities ++ ",\n  false AS is_entity_table\n" ++
    sourceScan fv max_timestamp min_timestamp ++ "\n)"

/-- Stages 2 and 3 of the template: the `<name>__joined` CTE windowing the
union (backfilling feature and created timestamps), applying the per-feature
validity filter, and joining the feature values back by timestamps and
entities. -/
def joinedCte (fv : FeatureViewQueryContext) (max_timestamp min_timestamp : String) : String :=
  fv.name ++ "__joined AS (\nSELECT\n  row_number,\n  event_timestamp,\n  " ++
    sqlJoin ", " fv.entities ++ ",\n  " ++
    sqlJoin ", \n  "
      (fv.features.map fun feat =>
        "IF(" ++ validityCondition fv ++ ", " ++ fv.name ++ "__" ++ feat ++ ", NULL) as " ++
          fv.name ++ "__" ++ feat) ++
    "\nFROM (\nSELECT\n  row_number,\n  event_timestamp,\n  " ++
    sqlJoin ", " fv.entities ++
    ",\n  FIRST_VALUE(created_timestamp IGNORE NULLS) over w AS created_timestamp,\n  FIRST_VALUE(" ++
    fv.name ++ "_feature_timestamp IGNORE NULLS) over w AS " ++ fv.name ++
    "_feature_timestamp,\n  is_entity_table\nFROM " ++ fv.name ++
    "__union_features\nWINDOW w AS (PARTITION BY " ++ sqlJoin ", " fv.entities ++
    " ORDER BY event_timestamp DESC, is_entity_table DESC, created_timestamp DESC ROWS BETWEEN CURRENT ROW AND UNBOUNDED FOLLOWING)\n)\nLEFT JOIN (\nSELECT\n  " ++
    fv.event_timestamp_column ++ " as " ++ fv.name ++ "_feature_timestamp,\n  " ++
    fv.created_timestamp_column ++ " as created_timestamp,\n  " ++
    sqlJoin ", " fv.entities ++ ",\n  " ++
    sqlJoin ", \n  "
      (fv.features.map fun feat => feat ++ " as " ++ fv.name ++ "__" ++ feat) ++
    "\n" ++ sourceScan fv max_timestamp min_timestamp ++ "\n) USING (" ++ fv.name ++
    "_feature_timestamp, created_timestamp, " ++ sqlJoin ", " fv.entities ++
    ")\nWHERE is_entity_table\n)"

/-- Stage 4 of the template: the `<name>__deduped` CTE keeping the first row
per entity-dataframe `row_number`. -/
def dedupedCte (fv : FeatureViewQueryContext) : String :=
  fv.name ++ "__deduped AS (SELECT\n  k.*\nFROM (\n  SELECT ARRAY_AGG(row LIMIT 1)[OFFSET(0)] k\n  FROM " ++
    fv.name ++ "__joined row\n  GROUP BY row_number\n))"

/-- One iteration of the template's `{% for featureview in featureviews %}`
loop: the three CTEs for one feature view. -/
def featureViewBlock (fv : FeatureViewQueryContext) (max_timestamp min_timestamp : String) :
    String :=
  unionFeaturesCte fv max_timestamp min_timestamp ++ ",\n" ++
    joinedCte fv max_timestamp min_timestamp ++ ",\n" ++ dedupedCte fv

/-- One `LEFT JOIN` of the final assembly, pulling a view's deduped feature
columns back onto the entity dataframe by `row_number`. -/
def finalJoinClause (fv : FeatureViewQueryContext) : String :=
  "LEFT JOIN (\n    SELECT\n    row_number,\n    " ++
    sqlJoin ", \n    " (fv.features.map fun feat => fv.name ++ "__" ++ feat) ++
    "\n    FROM " ++ fv.name ++ "__deduped\n) USING (row_number)\n"

/-- `build_point_in_time_query` from `gcp.py`: render
`SINGLE_FEATURE_VIEW_POINT_IN_TIME_JOIN` for the given contexts, window and
entity-dataframe source. -/
def build_point_in_time_query (feature_view_query_contexts : List FeatureViewQueryContext)
    (min_timestamp max_timestamp left_table_query_string : String) : String :=
  "\nWITH entity_dataframe AS (\n    SELECT ROW_NUMBER() OVER() AS row_number, edf.* FROM " ++
    left_table_query_string ++ " as edf\n),\n" ++
    sqlJoin ", \n\n"
      (feature_view_query_contexts.map fun fv =>
        featureViewBlock fv max_timestamp min_timestamp) ++
    "\n\nSELECT edf.event_timestamp as event_timestamp, * EXCEPT (row_number, event_timestamp) FROM entity_dataframe edf\n" ++
    sqlConcat (feature_view_query_contexts.map finalJoinClause) ++
    "ORDER BY event_timestamp\n"

/-- Model of `feast.data_source.BigQuerySource`: the fields `gcp.py` reads off
it. -/
structure BigQuerySourceM where
  table_ref : String
  event_timestamp_column : String
  created_timestamp_column : String
  field_mapping : List (String × String)
  query : String
  deriving DecidableEq, Repr

/-- Modelled from the spec: `BigQuerySource.get_table_query_string` (external
feast code) returns the table's queryable reference or its subquery text. -/
def BigQuerySourceM.get_table_query_string (s : BigQuerySourceM) : String :=
  if s.table_ref = "" then "(" ++ s.query ++ ")" else "`" ++ s.table_ref ++ "`"

/-- A feature view's input data source: a BigQuery source or any other source
kind (matched by `isinstance(feature_view.input, BigQuerySource)`). -/
inductive DataSourceM where
  | bigQuery (src : BigQuerySourceM)
  | otherSource (kindName : String)
  deriving DecidableEq, Repr

/-- Model of a `FeatureView` as read by `gcp.py`: name, entity column names,
declared expiry (`some seconds` iff `feature_view.ttl` is a `timedelta`), and
input source. -/
structure FeatureViewM where
  name : String
  entities : List String
  ttl : Option Int
  input : DataSourceM
  deriving DecidableEq, Repr

/-- The `<view>` part of a feature reference `<view>:<feature>`. -/
def refView (ref : String) : String :=
  String.mk (ref.data.takeWhile (fun c => c ≠ ':'))

/-- The `<feature>` part of a feature reference `<view>:<feature>`. -/
def refFeature (ref : String) : String :=
  String.mk ((ref.data.dropWhile (fun c => c ≠ ':')).drop 1)

/-- Modelled from the spec:
`_get_requested_feature_views_to_features_dict` (in `feast.infra.provider`,
not part of this file) groups the requested feature references
`<view>:<feature>` by their owning feature view. -/
def _get_requested_feature_views_to_features_dict (feature_refs : List String)
    (feature_views : List FeatureViewM) : List (FeatureViewM × List String) :=
  feature_views.filterMap fun v =>
    let fs := feature_refs.filterMap fun ref =>
      if refView ref = v.name then some (refFeature ref) else none
    if fs.isEmpty then none else some (v, fs)

/-- The configuration failures of the historical-features path: the
`ValueError` for an entity dataframe of an unsupported type, and the
`AssertionError` of `assert isinstance(feature_view.input, BigQuerySource)`
for a feature view whose source is not a BigQuery source.  The spec groups
both under `ConfigurationError`. -/
inductive ConfigurationError where
  | invalidEntityDf (tyName : String)
  | notBigQuerySource (viewName : String)
  deriving DecidableEq, Repr

/-- `get_feature_view_query_context` from `gcp.py`: build one
`FeatureViewQueryContext` per requested feature view, failing on the first
view whose input is not a BigQuery source. -/
def get_feature_view_query_context (feature_refs : List String)
    (feature_views : List FeatureViewM) :
    Except ConfigurationError (List FeatureViewQueryContext) :=
  go (_get_requested_feature_views_to_features_dict feature_refs feature_views)
where
  /-- The `for feature_view, features in ...` loop body. -/
  go : List (FeatureViewM × List String) → Except ConfigurationError (List FeatureViewQueryContext)
  | [] => .ok []
  | (feature_view, features) :: rest =>
    match feature_view.input with
    | .otherSource _ => .error (.notBigQuerySource feature_view.name)
    | .bigQuery src =>
      let ttl_seconds : Int :=
        match feature_view.ttl with
        | some s => s
        | none => 0
      match go rest with
      | .error e => .error e
      | .ok ctxs =>
        .ok ({ name := feature_view.name
               ttl := ttl_seconds
               entities := feature_view.entities
               features := features
               table_ref := src.table_ref
               event_timestamp_column := src.event_timestamp_column
               created_timestamp_column := src.created_timestamp_column
               field_mapping := src.field_mapping
               query := src.query
               table_subquery := src.get_table_query_string } :: ctxs)

/-- The `entity_df` argument of `get_historical_features`: a SQL query string,
a pandas DataFrame, or a value of any other type. -/
inductive EntityDfArg where
  | sqlQuery (q : String)
  | dataFrame
  | otherType (tyName : String)
  deriving DecidableEq, Repr

/-- A remote interaction performed by the historical-features path before the
deferred `RetrievalJob` is returned. -/
inductive RemoteEffect where
  | uploadEntityDfIntoBigquery
  deriving DecidableEq, Repr

/-- `get_historical_features` from `gcp.py`: dispatch on the entity dataframe
argument (a non-str, non-DataFrame raises at once; a DataFrame is first
uploaded to BigQuery — a remote interaction), build the query context
(raising on a non-BigQuery source), render the point-in-time query, and
return it wrapped in a deferred job.  `uploaded_table_id` is the table id the
upload returns; `min_timestamp`/`max_timestamp` are the rendered forms of the
`datetime.now()`-derived window.  Returns the remote effects performed and
the outcome. -/
def get_historical_features (feature_views : List FeatureViewM) (feature_refs : List String)
    (min_timestamp max_timestamp uploaded_table_id : String) (entity_df : EntityDfArg) :
    List RemoteEffect × Except ConfigurationError String :=
  match entity_df with
  | .sqlQuery q =>
    ([],
      match get_feature_view_query_context feature_refs feature_views with
      | .error e => .error e
      | .ok ctxs =>
        .ok (build_point_in_time_query ctxs min_timestamp max_timestamp ("(" ++ q ++ ")")))
  | .dataFrame =>
    ([.uploadEntityDfIntoBigquery],
      match get_feature_view_query_context feature_refs feature_views with
      | .error e => .error e
      | .ok ctxs =>
        .ok (build_point_in_time_query ctxs min_timestamp max_timestamp
          ("`" ++ uploaded_table_id ++ "`")))
  | .otherType tyName => ([], .error (.invalidEntityDf tyName))

/-- `p` occurs as a contiguous substring of `s`. -/
def occursIn (p s : String) : Prop :=
  ∃ a b : String, s = a ++ p ++ b

/-! ## Concrete example values -/

/-- A concrete entity key. -/
def exKey : EntityKeyP := ⟨["driver_id"], [EValue.int64Val 1001]⟩

/-- A second, distinct concrete entity key. -/
def exKey2 : EntityKeyP := ⟨["driver_id"], [EValue.int64Val 2002]⟩

/-- A concrete serialized feature value. -/
def exVal : ValueP := ⟨[8, 1]⟩

/-- A write record with event time 200 (naive) and created time 10. -/
def exRecordNew : WriteRecord := ⟨exKey, [("trips", exVal)], ⟨200, none⟩, some ⟨10, none⟩⟩

/-- A write record for the same key with the older event time 100. -/
def exRecordOld : WriteRecord := ⟨exKey, [("trips", exVal)], ⟨100, none⟩, some ⟨5, none⟩⟩

/-- A store already holding `exRecordNew`'s row. -/
def exDb : Datastore := (processRecord [] exRecordNew).1

/-- A concrete query context with no expiry (ttl 0). -/
def exCtx0 : FeatureViewQueryContext :=
  { name := "drivers", ttl := 0, entities := ["driver_id"], features := ["trips"],
    table_ref := "proj.ds.drivers", event_timestamp_column := "event_timestamp",
    created_timestamp_column := "created_timestamp", field_mapping := [],
    query := "", table_subquery := "`proj.ds.drivers`" }

/-- A concrete query context with a one-hour ttl. -/
def exCtxTtl : FeatureViewQueryContext :=
  { exCtx0 with ttl := 3600 }

/-- A concrete BigQuery source. -/
def exBQSource : BigQuerySourceM :=
  ⟨"proj.ds.drivers", "event_timestamp", "created_timestamp", [], ""⟩

/-- A feature view whose input is not a BigQuery source. -/
def exViewBad : FeatureViewM := ⟨"fv", ["driver_id"], none, .otherSource "FileSource"⟩

/-- A feature view with a BigQuery source and a one-hour ttl. -/
def exViewGood : FeatureViewM := ⟨"drivers", ["driver_id"], some 3600, .bigQuery exBQSource⟩

/-- Attempt oracle: every commit raises `Conflict`. -/
def constConflict : Nat → AttemptOutcome := fun _ => AttemptOutcome.conflict

/-- Attempt oracle: every commit succeeds. -/
def constOk : Nat → AttemptOutcome := fun _ => AttemptOutcome.ok

/-- Attempt oracle: the first commit raises `Conflict`, later ones succeed. -/
def conflictThenOk : Nat → AttemptOutcome :=
  fun n => if n = 0 then AttemptOutcome.conflict else AttemptOutcome.ok

/-! ## Store lemmas -/

theorem dsGet_dsPut_self (db : Datastore) (k : String) (r : StoredRow) :
    dsGet (dsPut db k r) k = some r := by
  induction db with
  | nil => simp [dsGet, dsPut]
  | cons p rest ih =>
    obtain ⟨k', r'⟩ := p
    by_cases h : k' = k <;> simp [dsGet, dsPut, h, ih]

theorem dsGet_dsPut_ne (db : Datastore) (k k2 : String) (r : StoredRow) (h : k ≠ k2) :
    dsGet (dsPut db k r) k2 = dsGet db k2 := by
  induction db with
  | nil => simp [dsGet, dsPut, h]
  | cons p rest ih =>
    obtain ⟨k', r'⟩ := p
    by_cases h' : k' = k
    · subst h'
      simp [dsGet, dsPut, h]
    · simp [dsGet, dsPut, h', ih]

/-! ## Per-record write lemmas -/

/-- The second guard of the staleness check, unfolded to explicit witnesses. -/
theorem created_guard_iff (e : StoredRow) (r : WriteRecord) :
    (r.created_ts.isSome = true ∧ e.created_ts.isSome = true ∧
      optInstant (Option.map _make_tzaware r.created_ts) < optInstant e.created_ts) ↔
    ∃ rc ec, r.created_ts = some rc ∧ e.created_ts = some ec ∧
      (_make_tzaware rc).instant < ec.instant := by
  cases r.created_ts <;> cases e.created_ts <;> simp [optInstant]

/-- Each record is either skipped, leaving the store unchanged, or written,
upserting exactly `mkRow r` under its document id. -/
theorem processRecord_cases (db : Datastore) (r : WriteRecord) :
    ((processRecord db r).2 = false ∧ (processRecord db r).1 = db) ∨
    ((processRecord db r).2 = true ∧
      (processRecord db r).1 =
        dsPut db (compute_datastore_entity_id r.entity_key) (mkRow r)) := by
  cases hget : dsGet db (compute_datastore_entity_id r.entity_key) with
  | none => right; simp [processRecord, hget]
  | some e =>
    by_cases h1 : (_make_tzaware r.timestamp).instant < e.event_ts.instant
    · left; simp [processRecord, hget, h1]
    · by_cases h2 : e.event_ts.instant = (_make_tzaware r.timestamp).instant
          ∧ r.created_ts.isSome = true ∧ e.created_ts.isSome = true
          ∧ optInstant (Option.map _make_tzaware r.created_ts) < optInstant e.created_ts
      · left; simp [processRecord, hget, h1, h2]
      · right; simp [processRecord, hget, h1, h2]

/-- The source's skip decision agrees with the spec's staleness guard. -/
theorem processRecord_skip_iff (db : Datastore) (r : WriteRecord) :
    (processRecord db r).2 = false ↔ skipCondition db r := by
  unfold skipCondition
  cases hget : dsGet db (compute_datastore_entity_id r.entity_key) with
  | none => simp [processRecord, hget]
  | some e =>
    simp only [hget, Option.some.injEq]
    by_cases h1 : (_make_tzaware r.timestamp).instant < e.event_ts.instant
    · simp only [processRecord, hget, if_pos h1]
      constructor
      · intro _
        exact ⟨e, rfl, Or.inl h1⟩
      · intro _; trivial
    · by_cases h2 : e.event_ts.instant = (_make_tzaware r.timestamp).instant
          ∧ r.created_ts.isSome = true ∧ e.created_ts.isSome = true
          ∧ optInstant (Option.map _make_tzaware r.created_ts) < optInstant e.created_ts
      · simp only [processRecord, hget, if_neg h1, if_pos h2]
        constructor
        · intro _
          exact ⟨e, rfl, Or.inr ⟨h2.1, (created_guard_iff e r).mp h2.2⟩⟩
        · intro _; trivial
      · simp only [processRecord, hget, if_neg h1, if_neg h2]
        constructor
        · intro h; simp at h
        · rintro ⟨e2, he2, hor⟩
          cases he2
          rcases hor with hlt | ⟨heq, hex⟩
          · exact absurd hlt h1
          · exact absurd ⟨heq, (created_guard_iff e r).mpr hex⟩ h2

/-- A write never lowers (and a skip never changes) the event timestamp stored
under any document id. -/
theorem processRecord_mono (db : Datastore) (r : WriteRecord) (k : String)
    (e e' : StoredRow) (h : dsGet db k = some e)
    (h' : dsGet (processRecord db r).1 k = some e') :
    e.event_ts.instant ≤ e'.event_ts.instant := by
  rcases processRecord_cases db r with ⟨_, hst⟩ | ⟨hw, hst⟩
  · rw [hst, h] at h'
    cases h'
    exact le_refl _
  · rw [hst] at h'
    by_cases hk : compute_datastore_entity_id r.entity_key = k
    · subst hk
      rw [dsGet_dsPut_self] at h'
      cases h'
      have hns : ¬ skipCondition db r := by
        rw [← processRecord_skip_iff]
        simp [hw]
      have hle : ¬ (_make_tzaware r.timestamp).instant < e.event_ts.instant := by
        intro hlt
        exact hns ⟨e, h, Or.inl hlt⟩
      simp only [mkRow]
      omega
    · rw [dsGet_dsPut_ne _ _ _ _ hk, h] at h'
      cases h'
      exact le_refl _

/-- Rows are never deleted by the write path. -/
theorem processRecord_isSome (db : Datastore) (r : WriteRecord) (k : String)
    (h : (dsGet db k).isSome = true) :
    (dsGet (processRecord db r).1 k).isSome = true := by
  rcases processRecord_cases db r with ⟨_, hst⟩ | ⟨_, hst⟩
  · rw [hst]; exact h
  · rw [hst]
    by_cases hk : compute_datastore_entity_id r.entity_key = k
    · subst hk
      rw [dsGet_dsPut_self]
      rfl
    · rw [dsGet_dsPut_ne _ _ _ _ hk]
      exact h

/-! ## Attempt-body lemmas -/

theorem attemptStep_go (data : List WriteRecord) :
    ∀ (db : Datastore) (a b : Nat),
      data.foldl attemptStep (db, a, b) =
        ((data.foldl attemptStep (db, 0, 0)).1,
          a + (data.foldl attemptStep (db, 0, 0)).2.1,
          b + (data.foldl attemptStep (db, 0, 0)).2.2) := by
  induction data with
  | nil => intro db a b; simp
  | cons r rest ih =>
    intro db a b
    simp only [List.foldl_cons, attemptStep, Nat.zero_add]
    rw [ih ((processRecord db r).1) (a + if (processRecord db r).2 then 1 else 0)
          (b + if (processRecord db r).2 then 1 else 0),
        ih ((processRecord db r).1) (if (processRecord db r).2 then 1 else 0)
          (if (processRecord db r).2 then 1 else 0)]
    simp only [Prod.mk.injEq, true_and, and_true]
    exact ⟨by omega, by omega⟩

theorem attemptBody_cons (db : Datastore) (r : WriteRecord) (data : List WriteRecord) :
    attemptBody db (r :: data) =
      ((attemptBody (processRecord db r).1 data).1,
        (if (processRecord db r).2 then 1 else 0) +
          (attemptBody (processRecord db r).1 data).2.1,
        (if (processRecord db r).2 then 1 else 0) +
          (attemptBody (processRecord db r).1 data).2.2) := by
  simp only [attemptBody, List.foldl_cons, attemptStep, Nat.zero_add]
  rw [attemptStep_go data ((processRecord db r).1) (if (processRecord db r).2 then 1 else 0)
        (if (processRecord db r).2 then 1 else 0)]

theorem attemptBody_isSome (data : List WriteRecord) :
    ∀ (db : Datastore) (k : String), (dsGet db k).isSome = true →
      (dsGet (attemptBody db data).1 k).isSome = true := by
  induction data with
  | nil => intro db k h; simpa [attemptBody] using h
  | cons r rest ih =>
    intro db k h
    rw [attemptBody_cons]
    exact ih _ _ (processRecord_isSome db r k h)

theorem attemptBody_mono (data : List WriteRecord) :
    ∀ (db : Datastore) (k : String) (e e' : StoredRow), dsGet db k = some e →
      dsGet (attemptBody db data).1 k = some e' →
      e.event_ts.instant ≤ e'.event_ts.instant := by
  induction data with
  | nil =>
    intro db k e e' h h'
    simp only [attemptBody, List.foldl_nil] at h'
    rw [h] at h'
    cases h'
    exact le_refl _
  | cons r rest ih =>
    intro db k e e' h h'
    rw [attemptBody_cons] at h'
    have hs : (dsGet (processRecord db r).1 k).isSome = true :=
      processRecord_isSome db r k (by simp [h])
    rcases Option.isSome_iff_exists.mp hs with ⟨e1, he1⟩
    exact le_trans (processRecord_mono db r k e e1 h he1) (ih _ _ _ _ he1 h')

/-! ## Minibatch-splitting lemmas -/

theorem to_minibatches_flatten (l : List WriteRecord) :
    (_to_minibatches l).flatten = l := by
  induction l using _to_minibatches.induct with
  | case1 => simp [_to_minibatches]
  | case2 a as ih =>
    rw [_to_minibatches]
    simp [ih]

theorem to_minibatches_length (l : List WriteRecord) :
    (_to_minibatches l).length = (l.length + 49) / 50 := by
  induction l using _to_minibatches.induct with
  | case1 => simp [_to_minibatches]
  | case2 a as ih =>
    rw [_to_minibatches]
    simp only [batch_size] at ih ⊢
    simp only [List.length_cons, List.length_drop] at ih ⊢
    omega

theorem to_minibatches_batch_bounds (l : List WriteRecord) :
    ∀ b ∈ _to_minibatches l, b ≠ [] ∧ b.length ≤ 50 := by
  induction l using _to_minibatches.induct with
  | case1 => simp [_to_minibatches]
  | case2 a as ih =>
    intro b hb
    rw [_to_minibatches] at hb
    rcases List.mem_cons.mp hb with hb | hb
    · subst hb
      constructor
      · simp [batch_size]
      · simp only [batch_size, List.length_take]
        omega
    · exact ih b hb

theorem to_minibatches_getD (l : List WriteRecord) :
    ∀ i, i + 1 < (_to_minibatches l).length →
      ((_to_minibatches l).getD i []).length = 50 := by
  induction l using _to_minibatches.induct with
  | case1 =>
    intro i h
    simp [_to_minibatches] at h
  | case2 a as ih =>
    intro i h
    rw [_to_minibatches] at h ⊢
    cases i with
    | zero =>
      simp only [List.getD_cons_zero]
      have hlen := to_minibatches_length ((a :: as).drop batch_size)
      simp only [batch_size] at hlen h ⊢
      simp only [List.length_drop, List.length_cons, List.length_take] at hlen h ⊢
      omega
    | succ j =>
      simp only [List.getD_cons_succ]
      exact ih j (by simp only [List.length_cons] at h; omega)

/-- C4: `_to_minibatches` with batch size 50 yields `⌈N/50⌉` batches, every
batch is non-empty and of size at most 50, concatenating the batches in yield
order reconstructs the input, and every batch but the last has size exactly
50. -/
theorem C4_to_minibatches (l : List WriteRecord) :
    (_to_minibatches l).length = (l.length + 49) / 50
  ∧ (_to_minibatches l).flatten = l
  ∧ (∀ b ∈ _to_minibatches l, b ≠ [] ∧ b.length ≤ 50)
  ∧ (∀ i, i + 1 < (_to_minibatches l).length →
      ((_to_minibatches l).getD i []).length = 50) :=
  ⟨to_minibatches_length l, to_minibatches_flatten l,
    to_minibatches_batch_bounds l, to_minibatches_getD l⟩

/-! ## Retry-loop lemmas -/

/-- Exhaustive enumeration of `_write_minibatch`'s behaviour over the attempt
outcomes, with `pc` the (attempt-invariant) per-attempt progress count. -/
theorem write_minibatch_enum (db : Datastore) (data : List WriteRecord)
    (o : Nat → AttemptOutcome) :
    (o 0 = .ok →
      _write_minibatch db data o =
        ((attemptBody db data).1, (attemptBody db data).2.2, 1, .ok ()))
  ∧ (o 0 = .err →
      _write_minibatch db data o = (db, (attemptBody db data).2.2, 1, .error .other))
  ∧ (o 0 = .conflict → o 1 = .ok →
      _write_minibatch db data o =
        ((attemptBody db data).1, 2 * (attemptBody db data).2.2, 2, .ok ()))
  ∧ (o 0 = .conflict → o 1 = .err →
      _write_minibatch db data o = (db, 2 * (attemptBody db data).2.2, 2, .error .other))
  ∧ (o 0 = .conflict → o 1 = .conflict → o 2 = .ok →
      _write_minibatch db data o =
        ((attemptBody db data).1, 3 * (attemptBody db data).2.2, 3, .ok ()))
  ∧ (o 0 = .conflict → o 1 = .conflict → o 2 = .err →
      _write_minibatch db data o = (db, 3 * (attemptBody db data).2.2, 3, .error .other))
  ∧ (o 0 = .conflict → o 1 = .conflict → o 2 = .conflict →
      _write_minibatch db data o = (db, 3 * (attemptBody db data).2.2, 3, .error .conflict)) := by
  refine ⟨?_, ?_, ?_, ?_, ?_, ?_, ?_⟩ <;>
    intro h0 <;>
    first
    | (simp [_write_minibatch, writeAttemptsFrom, num_retries_on_conflict, h0] <;> omega)
    | (intro h1 <;>
       first
       | (simp [_write_minibatch, writeAttemptsFrom, num_retries_on_conflict, h0, h1] <;>
           omega)
       | (intro h2 <;>
          simp [_write_minibatch, writeAttemptsFrom, num_retries_on_conflict, h0, h1, h2] <;>
          omega))

theorem runMinibatches_cons (db : Datastore) (b : List WriteRecord)
    (rest : List (List WriteRecord)) (oracles : Nat → Nat → AttemptOutcome) (i : Nat) :
    runMinibatches db (b :: rest) oracles i =
      ((runMinibatches (_write_minibatch db b (oracles i)).1 rest oracles (i + 1)).1,
        (_write_minibatch db b (oracles i)).2.1 +
          (runMinibatches (_write_minibatch db b (oracles i)).1 rest oracles (i + 1)).2.1,
        match (_write_minibatch db b (oracles i)).2.2.2 with
        | .error e => .error e
        | .ok _ => (runMinibatches (_write_minibatch db b (oracles i)).1 rest oracles (i + 1)).2.2) :=
  rfl

/-! ## Further shared lemmas -/

theorem to_minibatches_nil : _to_minibatches [] = [] := by
  rw [_to_minibatches]

theorem attemptBody_counts (data : List WriteRecord) :
    ∀ db : Datastore, (attemptBody db data).2.2 = (attemptBody db data).2.1 := by
  induction data with
  | nil => intro db; rfl
  | cons r rest ih =>
    intro db
    rw [attemptBody_cons]
    simp [ih]

theorem hashBytes_length (bs : List Nat) : (hashBytes bs).length = 16 := by
  simp [hashBytes]

theorem hexEncode_length (bs : List Nat) : (hexEncode bs).length = 2 * bs.length := by
  induction bs with
  | nil => rfl
  | cons b rest ih =>
    simp only [hexEncode, String.length, List.map_cons, List.flatten_cons,
      List.length_append, List.length_cons, List.length_nil] at ih ⊢
    omega

/-- The store `_write_minibatch` leaves behind is either the untouched input
store (failed commit) or the committed attempt body's store. -/
theorem write_minibatch_store_cases (db : Datastore) (data : List WriteRecord)
    (o : Nat → AttemptOutcome) :
    (_write_minibatch db data o).1 = db ∨
    (_write_minibatch db data o).1 = (attemptBody db data).1 := by
  obtain ⟨hok0, herr0, hok1, herr1, hok2, herr2, hcon⟩ := write_minibatch_enum db data o
  cases h0 : o 0 with
  | ok => right; rw [hok0 h0]
  | err => left; rw [herr0 h0]
  | conflict =>
    cases h1 : o 1 with
    | ok => right; rw [hok1 h0 h1]
    | err => left; rw [herr1 h0 h1]
    | conflict =>
      cases h2 : o 2 with
      | ok => right; rw [hok2 h0 h1 h2]
      | err => left; rw [herr2 h0 h1 h2]
      | conflict => left; rw [hcon h0 h1 h2]

theorem write_minibatch_isSome (db : Datastore) (data : List WriteRecord)
    (o : Nat → AttemptOutcome) (k : String) (h : (dsGet db k).isSome = true) :
    (dsGet (_write_minibatch db data o).1 k).isSome = true := by
  rcases write_minibatch_store_cases db data o with hst | hst
  · rw [hst]; exact h
  · rw [hst]; exact attemptBody_isSome data db k h

theorem write_minibatch_mono (db : Datastore) (data : List WriteRecord)
    (o : Nat → AttemptOutcome) (k : String) (e e' : StoredRow)
    (h : dsGet db k = some e) (h' : dsGet (_write_minibatch db data o).1 k = some e') :
    e.event_ts.instant ≤ e'.event_ts.instant := by
  rcases write_minibatch_store_cases db data o with hst | hst
  · rw [hst, h] at h'
    cases h'
    exact le_refl _
  · rw [hst] at h'
    exact attemptBody_mono data db k e e' h h'

theorem runMinibatches_isSome (batches : List (List WriteRecord)) :
    ∀ (db : Datastore) (oracles : Nat → Nat → AttemptOutcome) (i : Nat) (k : String),
      (dsGet db k).isSome = true →
      (dsGet (runMinibatches db batches oracles i).1 k).isSome = true := by
  induction batches with
  | nil => intro db oracles i k h; exact h
  | cons b rest ih =>
    intro db oracles i k h
    rw [runMinibatches_cons]
    exact ih _ oracles (i + 1) k (write_minibatch_isSome db b (oracles i) k h)

theorem runMinibatches_mono (batches : List (List WriteRecord)) :
    ∀ (db : Datastore) (oracles : Nat → Nat → AttemptOutcome) (i : Nat) (k : String)
      (e e' : StoredRow), dsGet db k = some e →
      dsGet (runMinibatches db batches oracles i).1 k = some e' →
      e.event_ts.instant ≤ e'.event_ts.instant := by
  induction batches with
  | nil =>
    intro db oracles i k e e' h h'
    simp only [runMinibatches] at h'
    rw [h] at h'
    cases h'
    exact le_refl _
  | cons b rest ih =>
    intro db oracles i k e e' h h'
    rw [runMinibatches_cons] at h'
    have hs : (dsGet (_write_minibatch db b (oracles i)).1 k).isSome = true :=
      write_minibatch_isSome db b (oracles i) k (by simp [h])
    rcases Option.isSome_iff_exists.mp hs with ⟨e1, he1⟩
    exact le_trans (write_minibatch_mono db b (oracles i) k e e1 h he1)
      (ih _ oracles (i + 1) k e1 e' he1 h')

/-! ## Claim theorems -/

/-- C4 witness: on a concrete 120-record batch there are three minibatches and
the first has exactly 50 records. -/
theorem C4_to_minibatches_witness :
    0 + 1 < (_to_minibatches (List.replicate 120 exRecordNew)).length
  ∧ ((_to_minibatches (List.replicate 120 exRecordNew)).getD 0 []).length = 50 := by
  have hlen := (C4_to_minibatches (List.replicate 120 exRecordNew)).1
  have hb : (0 : Nat) + 1 < (_to_minibatches (List.replicate 120 exRecordNew)).length := by
    rw [hlen]
    simp
  exact ⟨hb, (C4_to_minibatches (List.replicate 120 exRecordNew)).2.2.2 0 hb⟩

/-- C1: a record is skipped, with the stored row unchanged, exactly when the
staleness guard fires (existing event timestamp strictly newer, or equal event
timestamps with both created timestamps present and the existing one strictly
newer); otherwise the row is upserted with the incoming values; consequently a
stored row's event timestamp never decreases across the writes of a
transactional attempt (and rows are never deleted). -/
theorem C1_staleness_guard (db : Datastore) (data : List WriteRecord) (r : WriteRecord) :
    ((processRecord db r).2 = false ↔ skipCondition db r)
  ∧ ((processRecord db r).2 = false → (processRecord db r).1 = db)
  ∧ ((processRecord db r).2 = true →
      (processRecord db r).1 =
        dsPut db (compute_datastore_entity_id r.entity_key) (mkRow r))
  ∧ (∀ k, (dsGet db k).isSome = true → (dsGet (attemptBody db data).1 k).isSome = true)
  ∧ (∀ k e e', dsGet db k = some e → dsGet (attemptBody db data).1 k = some e' →
      e.event_ts.instant ≤ e'.event_ts.instant)
  ∧ (∀ (oracles : Nat → Nat → AttemptOutcome) k e e',
      dsGet db k = some e →
      dsGet (online_write_batch db data oracles).1 k = some e' →
      e.event_ts.instant ≤ e'.event_ts.instant) := by
  refine ⟨processRecord_skip_iff db r, ?_, ?_, attemptBody_isSome data db,
    fun k e e' => attemptBody_mono data db k e e',
    fun oracles k e e' => runMinibatches_mono (_to_minibatches data) db oracles 0 k e e'⟩
  · intro h
    rcases processRecord_cases db r with ⟨_, hst⟩ | ⟨hw, _⟩
    · exact hst
    · rw [hw] at h
      simp at h
  · intro h
    rcases processRecord_cases db r with ⟨hs, _⟩ | ⟨_, hst⟩
    · rw [hs] at h
      simp at h
    · exact hst

/-- C1 witness: a record with event time 100 against a stored row with event
time 200 is skipped and leaves the store unchanged. -/
theorem C1_staleness_guard_witness :
    (processRecord exDb exRecordOld).2 = false ∧ (processRecord exDb exRecordOld).1 = exDb :=
  ⟨by decide, (C1_staleness_guard exDb [] exRecordOld).2.1 (by decide)⟩

/-- C2: a minibatch write executes at most 3 attempts; an attempt reached
after conflicts commits the batch if its outcome is success, propagates
immediately any non-conflict error, retries only on conflicts, and after 3
conflicts the conflict error is re-raised; an error result of any minibatch
surfaces as the result of the whole write batch. -/
theorem C2_conflict_retry (db : Datastore) (data : List WriteRecord)
    (o : Nat → AttemptOutcome) :
    ((_write_minibatch db data o).2.2.1 ≤ num_retries_on_conflict)
  ∧ (∀ i, i < num_retries_on_conflict → (∀ j, j < i → o j = .conflict) → o i = .ok →
      _write_minibatch db data o =
        ((attemptBody db data).1, (i + 1) * (attemptBody db data).2.2, i + 1, .ok ()))
  ∧ (∀ i, i < num_retries_on_conflict → (∀ j, j < i → o j = .conflict) → o i = .err →
      _write_minibatch db data o =
        (db, (i + 1) * (attemptBody db data).2.2, i + 1, .error .other))
  ∧ ((∀ j, j < num_retries_on_conflict → o j = .conflict) →
      _write_minibatch db data o =
        (db, num_retries_on_conflict * (attemptBody db data).2.2,
          num_retries_on_conflict, .error .conflict))
  ∧ (∀ (rest : List (List WriteRecord)) (oracles : Nat → Nat → AttemptOutcome) (i : Nat)
        (e : WriteError),
      (_write_minibatch db data (oracles i)).2.2.2 = .error e →
      (runMinibatches db (data :: rest) oracles i).2.2 = .error e)
  ∧ (∀ (rest : List (List WriteRecord)) (oracles : Nat → Nat → AttemptOutcome) (i : Nat)
        (e : WriteError),
      (_write_minibatch db data (oracles i)).2.2.2 = .ok () →
      (runMinibatches (_write_minibatch db data (oracles i)).1 rest oracles (i + 1)).2.2 =
        .error e →
      (runMinibatches db (data :: rest) oracles i).2.2 = .error e) := by
  obtain ⟨hok0, herr0, hok1, herr1, hok2, herr2, hcon⟩ := write_minibatch_enum db data o
  refine ⟨?_, ?_, ?_, ?_, ?_, ?_⟩
  · cases h0 : o 0 with
    | ok => rw [hok0 h0]; simp [num_retries_on_conflict]
    | err => rw [herr0 h0]; simp [num_retries_on_conflict]
    | conflict =>
      cases h1 : o 1 with
      | ok => rw [hok1 h0 h1]; simp [num_retries_on_conflict]
      | err => rw [herr1 h0 h1]; simp [num_retries_on_conflict]
      | conflict =>
        cases h2 : o 2 with
        | ok => rw [hok2 h0 h1 h2]; simp [num_retries_on_conflict]
        | err => rw [herr2 h0 h1 h2]; simp [num_retries_on_conflict]
        | conflict => rw [hcon h0 h1 h2]; simp [num_retries_on_conflict]
  · intro i hi hprev hoki
    simp only [num_retries_on_conflict] at hi
    interval_cases i
    · rw [hok0 hoki]; norm_num
    · rw [hok1 (hprev 0 (by omega)) hoki]
    · rw [hok2 (hprev 0 (by omega)) (hprev 1 (by omega)) hoki]
  · intro i hi hprev herri
    simp only [num_retries_on_conflict] at hi
    interval_cases i
    · rw [herr0 herri]; norm_num
    · rw [herr1 (hprev 0 (by omega)) herri]
    · rw [herr2 (hprev 0 (by omega)) (hprev 1 (by omega)) herri]
  · intro hall
    rw [hcon (hall 0 (by simp [num_retries_on_conflict])) (hall 1 (by simp [num_retries_on_conflict]))
      (hall 2 (by simp [num_retries_on_conflict]))]
    simp [num_retries_on_conflict]
  · intro rest oracles i e h
    rw [runMinibatches_cons]
    simp [h]
  · intro rest oracles i e hok htail
    rw [runMinibatches_cons]
    simp [hok, htail]

/-- C2 witness: with every attempt conflicting, the concrete one-record
minibatch fails with the re-raised conflict after exactly 3 attempts. -/
theorem C2_conflict_retry_witness :
    _write_minibatch exDb [exRecordOld] constConflict =
      (exDb, num_retries_on_conflict * (attemptBody exDb [exRecordOld]).2.2,
        num_retries_on_conflict, .error .conflict) :=
  (C2_conflict_retry exDb [exRecordOld] constConflict).2.2.2.1 (fun _ _ => rfl)

/-- C5: `online_read` returns one result per input key, in order: `(None,
None)` for an absent row, and the stored event timestamp with the feature map
parsed from serialized form for a present row. -/
theorem C5_online_read (db : Datastore) (entity_keys : List EntityKeyP) :
    (online_read db entity_keys).length = entity_keys.length
  ∧ ∀ i, i < entity_keys.length →
      (online_read db entity_keys).getD i (none, none) =
        match dsGet db (compute_datastore_entity_id (entity_keys.getD i ⟨[], []⟩)) with
        | some value =>
          (some value.event_ts,
            some (value.values.map fun p => (p.1, ValueP.parseFromString p.2)))
        | none => (none, none) := by
  constructor
  · simp [online_read]
  · intro i hi
    rw [List.getD_eq_getElem?_getD, List.getD_eq_getElem?_getD]
    simp only [online_read, List.getElem?_map, List.getElem?_eq_getElem hi]
    rfl

/-- C5 witness: reading the concrete store at a present key returns its event
timestamp and parsed feature map. -/
theorem C5_online_read_witness :
    0 < [exKey, exKey2].length ∧
      (online_read exDb [exKey, exKey2]).getD 0 (none, none) =
        match dsGet exDb (compute_datastore_entity_id ([exKey, exKey2].getD 0 ⟨[], []⟩)) with
        | some value =>
          (some value.event_ts,
            some (value.values.map fun p => (p.1, ValueP.parseFromString p.2)))
        | none => (none, none) :=
  ⟨by decide, (C5_online_read exDb [exKey, exKey2]).2 0 (by decide)⟩

/-- C6: the lookup identifier is the hex encoding of the hash of the key's
byte serialization, so keys with equal serializations get equal identifiers,
and the identifier always has the fixed length 32. -/
theorem C6_entity_id (k1 k2 : EntityKeyP)
    (h : serialize_entity_key k1 = serialize_entity_key k2) :
    compute_datastore_entity_id k1 = compute_datastore_entity_id k2
  ∧ (compute_datastore_entity_id k1).length = 32 := by
  constructor
  · unfold compute_datastore_entity_id
    rw [h]
  · unfold compute_datastore_entity_id
    rw [hexEncode_length, hashBytes_length]

/-- C6 witness at a concrete key. -/
theorem C6_entity_id_witness :
    serialize_entity_key exKey = serialize_entity_key exKey
  ∧ (compute_datastore_entity_id exKey = compute_datastore_entity_id exKey
      ∧ (compute_datastore_entity_id exKey).length = 32) :=
  ⟨rfl, C6_entity_id exKey exKey rfl⟩

/-- C9: every upserted row stores the `_make_tzaware` images of the incoming
timestamps; these are timezone-aware and equal (as Python datetimes, i.e. as
instants) to the UTC normalization of the inputs, a naive input being read as
already UTC. -/
theorem C9_utc_normalization (db : Datastore) (r : WriteRecord)
    (h : (processRecord db r).2 = true) :
    dsGet (processRecord db r).1 (compute_datastore_entity_id r.entity_key) = some (mkRow r)
  ∧ (mkRow r).event_ts = _make_tzaware r.timestamp
  ∧ (mkRow r).created_ts = r.created_ts.map _make_tzaware
  ∧ (_make_tzaware r.timestamp).off.isSome = true
  ∧ pyDatetimeEq (_make_tzaware r.timestamp) (utcNormalized r.timestamp)
  ∧ (r.timestamp.off = none → _make_tzaware r.timestamp = ⟨r.timestamp.wall, some 0⟩)
  ∧ (r.created_ts.isSome = true →
      ((r.created_ts.map _make_tzaware).getD ⟨0, none⟩).off.isSome = true
      ∧ pyDatetimeEq ((r.created_ts.map _make_tzaware).getD ⟨0, none⟩)
          (utcNormalized (r.created_ts.getD ⟨0, none⟩))) := by
  refine ⟨?_, rfl, rfl, ?_, ?_, ?_, ?_⟩
  · rcases processRecord_cases db r with ⟨hs, _⟩ | ⟨_, hst⟩
    · rw [hs] at h
      simp at h
    · rw [hst, dsGet_dsPut_self]
  · cases ht : r.timestamp.off <;> simp [_make_tzaware, ht]
  · cases ht : r.timestamp.off <;>
      simp [_make_tzaware, utcNormalized, pyDatetimeEq, PyDateTime.instant, ht]
  · intro hn
    cases ht : r.timestamp.off
    · simp [_make_tzaware, ht]
    · rw [ht] at hn
      cases hn
  · intro hc
    cases hcr : r.created_ts with
    | none =>
      rw [hcr] at hc
      cases hc
    | some c =>
      simp only [Option.map_some, Option.getD_some]
      constructor
      · cases hco : c.off <;> simp [_make_tzaware, hco]
      · cases hco : c.off <;>
          simp [_make_tzaware, utcNormalized, pyDatetimeEq, PyDateTime.instant, hco]

/-- C9 witness: writing a record with a naive event timestamp stores its
`_make_tzaware` image. -/
theorem C9_utc_normalization_witness :
    (processRecord [] exRecordNew).2 = true
  ∧ dsGet (processRecord [] exRecordNew).1
      (compute_datastore_entity_id exRecordNew.entity_key) = some (mkRow exRecordNew) :=
  ⟨by decide, (C9_utc_normalization [] exRecordNew (by decide)).1⟩

/-- C10: an empty record list yields no minibatches, and `online_write_batch`
on it leaves the store unchanged, invokes the progress callback zero times,
and succeeds. -/
theorem C10_empty_write_batch (db : Datastore) (oracles : Nat → Nat → AttemptOutcome) :
    _to_minibatches [] = [] ∧ online_write_batch db [] oracles = (db, 0, .ok ()) := by
  refine ⟨to_minibatches_nil, ?_⟩
  simp only [online_write_batch, to_minibatches_nil]
  rfl

/-- C8 counterexample: one record, first attempt conflicting, second
committing — the single written row receives two progress invocations, so the
number of invocations (2) differs from the number of rows written (1). -/
theorem C8_progress_counterexample :
    (_write_minibatch [] [exRecordNew] conflictThenOk).2.1 = 2
  ∧ List.length ((_write_minibatch [] [exRecordNew] conflictThenOk).1) = 1
  ∧ (2 : Nat) ≠ 1 := by
  refine ⟨by decide, by decide, by decide⟩

/-- C8 amended: within each transactional attempt the progress callback is
invoked exactly once per upserted row (the invocation count equals
`row_count`) and never for a skipped record; when the first attempt commits,
the total invocations equal the rows written.  (Invocations made during
conflict-discarded attempts are not retracted, so retried minibatches invoke
the callback more than once per written row.) -/
theorem C8_progress_per_write (db : Datastore) (data : List WriteRecord)
    (o : Nat → AttemptOutcome) (r : WriteRecord) (h : o 0 = .ok) :
    (_write_minibatch db data o).2.1 = (attemptBody db data).2.1
  ∧ (_write_minibatch db data o).1 = (attemptBody db data).1
  ∧ (attemptBody db data).2.2 = (attemptBody db data).2.1
  ∧ ((processRecord db r).2 = false → attemptBody db (r :: data) = attemptBody db data) := by
  have henum := (write_minibatch_enum db data o).1 h
  refine ⟨?_, ?_, attemptBody_counts data db, ?_⟩
  · rw [henum]
    exact attemptBody_counts data db
  · rw [henum]
  · intro hs
    have hst : (processRecord db r).1 = db := by
      rcases processRecord_cases db r with ⟨_, hst⟩ | ⟨hw, _⟩
      · exact hst
      · rw [hw] at hs
        cases hs
    rw [attemptBody_cons, hs, hst]
    simp

/-- C8 amended witness: a first-attempt success on the concrete minibatch
invokes progress exactly `row_count` times. -/
theorem C8_progress_per_write_witness :
    constOk 0 = AttemptOutcome.ok
  ∧ (_write_minibatch exDb [exRecordOld] constOk).2.1 =
      (attemptBody exDb [exRecordOld]).2.1 :=
  ⟨rfl, (C8_progress_per_write exDb [exRecordOld] constOk exRecordOld rfl).1⟩

/-! ## Substring lemmas for the rendered query -/

theorem occursIn_self (p : String) : occursIn p p :=
  ⟨"", "", by simp⟩

theorem occursIn_append_left (t : String) {p s : String} (h : occursIn p s) :
    occursIn p (t ++ s) := by
  obtain ⟨a, b, rfl⟩ := h
  exact ⟨t ++ a, b, by simp [String.append_assoc]⟩

theorem occursIn_append_right (t : String) {p s : String} (h : occursIn p s) :
    occursIn p (s ++ t) := by
  obtain ⟨a, b, rfl⟩ := h
  exact ⟨a, b ++ t, by simp [String.append_assoc]⟩

theorem occursIn_sqlJoin {α : Type} (sep : String) (f : α → String) (l : List α) (x : α)
    (hx : x ∈ l) : occursIn (f x) (sqlJoin sep (l.map f)) := by
  induction l with
  | nil => cases hx
  | cons a rest ih =>
    rcases List.mem_cons.mp hx with h | h
    · subst h
      cases rest with
      | nil => exact occursIn_self (f x)
      | cons b rest2 =>
        exact ⟨"", sep ++ sqlJoin sep (f b :: rest2.map f), by simp [sqlJoin, String.append_assoc]⟩
    · cases rest with
      | nil => cases h
      | cons b rest2 =>
        have hrec := ih h
        exact occursIn_append_left (f a ++ sep) hrec

theorem featureViewBlock_min_congr (c : FeatureViewQueryContext) (h : c.ttl = 0)
    (maxT m1 m2 : String) :
    featureViewBlock c maxT m1 = featureViewBlock c maxT m2 := by
  simp [featureViewBlock, unionFeaturesCte, joinedCte, dedupedCte, sourceScan,
    ttlBoundClause, h]

/-- C3: a context with ttl 0 contributes no TTL bound to the source scan
(which then depends only on the max timestamp — in fact the whole rendered
query is then independent of the min timestamp) and its per-feature validity
test is only `event_timestamp >= <name>_feature_timestamp`; a context with a
nonzero ttl additionally bounds source rows by
`<event col> >= Timestamp_sub(TIMESTAMP '<min>', interval <ttl> second)` and
nulls a feature unless
`Timestamp_sub(event_timestamp, interval <ttl> second) < <name>_feature_timestamp`;
the context's rendered block occurs verbatim in the built query. -/
theorem C3_ttl_filters (ctxs : List FeatureViewQueryContext) (fv : FeatureViewQueryContext)
    (hmem : fv ∈ ctxs) (min1 min2 maxT left : String) :
    (fv.ttl = 0 →
      ttlBoundClause fv min1 = ""
      ∧ sourceScan fv maxT min1 =
          "FROM " ++ fv.table_subquery ++ " WHERE " ++ fv.event_timestamp_column ++
            " <= " ++ sq ++ maxT ++ sq ++ "\n"
      ∧ validityCondition fv = "event_timestamp >= " ++ fv.name ++ "_feature_timestamp ")
  ∧ (fv.ttl ≠ 0 →
      ttlBoundClause fv min1 =
        "AND " ++ fv.event_timestamp_column ++ " >= Timestamp_sub(TIMESTAMP " ++ sq ++
          min1 ++ sq ++ ", interval " ++ toString fv.ttl ++ " second)"
      ∧ validityCondition fv =
          "event_timestamp >= " ++ fv.name ++ "_feature_timestamp " ++
            ("AND Timestamp_sub(event_timestamp, interval " ++ toString fv.ttl ++
              " second) < " ++ fv.name ++ "_feature_timestamp"))
  ∧ ((∀ c ∈ ctxs, c.ttl = 0) →
      build_point_in_time_query ctxs min1 maxT left =
        build_point_in_time_query ctxs min2 maxT left)
  ∧ occursIn (featureViewBlock fv maxT min1)
      (build_point_in_time_query ctxs min1 maxT left) := by
  refine ⟨?_, ?_, ?_, ?_⟩
  · intro h0
    refine ⟨?_, ?_, ?_⟩
    · simp [ttlBoundClause, h0]
    · simp [sourceScan, ttlBoundClause, h0]
    · simp [validityCondition, h0]
  · intro hne
    exact ⟨by simp [ttlBoundClause, hne], by simp [validityCondition, hne]⟩
  · intro hall
    unfold build_point_in_time_query
    rw [List.map_congr_left
        (fun c hc => featureViewBlock_min_congr c (hall c hc) maxT min1 min2)]
  · have h1 := occursIn_sqlJoin ", \n\n" (fun c => featureViewBlock c maxT min1) ctxs fv hmem
    unfold build_point_in_time_query
    exact occursIn_append_right _ (occursIn_append_right _
      (occursIn_append_right _ (occursIn_append_left _ h1)))

/-- C3 witness: a concrete ttl-0 context in a one-context query renders an
empty TTL bound. -/
theorem C3_ttl_filters_witness :
    exCtx0 ∈ [exCtx0] ∧ exCtx0.ttl = 0 ∧ ttlBoundClause exCtx0 "2021-06-01 00:00:00" = "" := by
  refine ⟨by decide, rfl, ?_⟩
  exact ((C3_ttl_filters [exCtx0] exCtx0 (by decide) "2021-06-01 00:00:00"
    "2020-06-01 00:00:00" "2021-06-02 00:00:00" "entity_df").1 rfl).1

/-- C7 counterexample: with a pandas-DataFrame entity dataset and a feature
view whose source is not a BigQuery source, the configuration error is raised
only after the entity dataframe has been uploaded to BigQuery — a remote
interaction precedes the error, contradicting "before any remote
interaction". -/
theorem C7_order_counterexample :
    get_historical_features [exViewBad] ["fv:trips"] "tmin" "tmax" "tid" .dataFrame =
      ([.uploadEntityDfIntoBigquery], .error (.notBigQuerySource "fv"))
  ∧ (get_historical_features [exViewBad] ["fv:trips"] "tmin" "tmax" "tid" .dataFrame).1 ≠
      [] := by
  refine ⟨rfl, by decide⟩

/-- C7 amended: the entity-dataset type error is raised with no remote
interaction at all; the unsupported-source error is raised before the query
is rendered, with no remote interaction when the entity dataset is a query
string, but after the entity-dataframe upload when it is a DataFrame. -/
theorem C7_config_errors (feature_views : List FeatureViewM) (feature_refs : List String)
    (minT maxT tid tyName q : String) (e : ConfigurationError)
    (h : get_feature_view_query_context feature_refs feature_views = .error e) :
    get_historical_features feature_views feature_refs minT maxT tid (.otherType tyName) =
      ([], .error (.invalidEntityDf tyName))
  ∧ get_historical_features feature_views feature_refs minT maxT tid (.sqlQuery q) =
      ([], .error e)
  ∧ get_historical_features feature_views feature_refs minT maxT tid .dataFrame =
      ([.uploadEntityDfIntoBigquery], .error e) := by
  refine ⟨rfl, ?_, ?_⟩ <;> simp [get_historical_features, h]

/-- C7 amended witness at a concrete unsupported-source feature view. -/
theorem C7_config_errors_witness :
    get_feature_view_query_context ["fv:trips"] [exViewBad] =
      .error (.notBigQuerySource "fv")
  ∧ get_historical_features [exViewBad] ["fv:trips"] "tmin" "tmax" "tid"
      (.otherType "dict") = ([], .error (.invalidEntityDf "dict")) :=
  ⟨rfl,
    (C7_config_errors [exViewBad] ["fv:trips"] "tmin" "tmax" "tid" "dict" "q"
      (.notBigQuerySource "fv") rfl).1⟩

end FeastGcp
